import Mathlib

/-!
Verification development for the expense tracker (`src/tracker.py`).

The program is a Streamlit application over a SQLite database with two
tables, `users(id, username UNIQUE, password_hash)` and
`expenses(id, dt TEXT, amount REAL, description, category, user_id)`.
We shallowly embed the database state as Lean lists and the data
operations (`add_expense`, `fetch_expenses`, the admin delete handlers,
`register_user`, `authenticate_user`, `auto_categorize`, the bulk-import
row loop and CSV export) as pure functions on that state.

Modelling conventions:
* `dt` values are the stored TEXT strings; the program always writes
  dates with `strftime("%Y-%m-%d")`, and both SQLite text comparison
  (`memcmp`) and Python `date` comparison agree with lexicographic
  byte order on such strings, so date comparison is string
  lexicographic order (`strLe`).
* SQLite `date(dt)` returns the normalized date string for a valid
  ISO `YYYY-MM-DD` input and NULL otherwise; `sqlite_date` models this
  (restricted to the ISO format, the only one the program writes).
* `amount` is a Python float compared against 0 and passed through
  unchanged; every float is an exact rational and all operations the
  program applies to amounts are exact, so amounts are modelled as `ℚ`.
* SQL `user_id = :uid` with a NULL operand matches no row; `sqlEq`
  models this three-valued equality collapsed to `false`.
-/

namespace Tracker

/-- Lexicographic byte order `a ≤ b` on character lists; on ASCII
`YYYY-MM-DD` strings this is exactly SQLite text comparison and
chronological date order. -/
def lexLe : List Char → List Char → Bool
  | [], _ => true
  | _ :: _, [] => false
  | a :: as, b :: bs =>
      decide (a.toNat < b.toNat) || (decide (a.toNat = b.toNat) && lexLe as bs)

/-- String comparison `a <= b` used for `date(dt) BETWEEN :start AND :end`
and for Python `date` comparison on ISO-formatted values. -/
def strLe (a b : String) : Bool := lexLe a.data b.data

/-- Strict comparison `a > b`, as in the handler check `start_del > end_del`. -/
def strGt (a b : String) : Bool := !(strLe a b)

/-- ASCII digit test. -/
def isDigitCh (c : Char) : Bool := decide (48 ≤ c.toNat) && decide (c.toNat ≤ 57)

/-- Numeric value of an ASCII digit. -/
def digitVal (c : Char) : Nat := c.toNat - 48

/-- Gregorian leap-year rule. -/
def isLeap (y : Nat) : Bool := (y % 4 == 0 && y % 100 != 0) || (y % 400 == 0)

/-- Number of days of month `m` in year `y`. -/
def daysInMonth (y m : Nat) : Nat :=
  if m == 1 || m == 3 || m == 5 || m == 7 || m == 8 || m == 10 || m == 12 then 31
  else if m == 4 || m == 6 || m == 9 || m == 11 then 30
  else if isLeap y then 29 else 28

/-- Whether a string is a valid calendar date in the `YYYY-MM-DD` format
the program stores (the format accepted by both SQLite `date()` and the
import-side date parsing for the strings this program produces). -/
def validISO (s : String) : Bool :=
  match s.data with
  | [y1, y2, y3, y4, h1, m1, m2, h2, d1, d2] =>
      (h1 == '-') && (h2 == '-') &&
      ([y1, y2, y3, y4, m1, m2, d1, d2].all isDigitCh) &&
      (let y := digitVal y1 * 1000 + digitVal y2 * 100 + digitVal y3 * 10 + digitVal y4
       let m := digitVal m1 * 10 + digitVal m2
       let d := digitVal d1 * 10 + digitVal d2
       decide (1 ≤ m) && decide (m ≤ 12) && decide (1 ≤ d) && decide (d ≤ daysInMonth y m))
  | _ => false

/-- SQLite `date(s)`: the normalized date string for valid input, NULL
(`none`) otherwise. -/
def sqlite_date (s : String) : Option String :=
  if validISO s then some s else none

/-- `date(dt) BETWEEN :start AND :end`: false when `date(dt)` is NULL. -/
def dateBetween (dtv s e : String) : Bool :=
  match sqlite_date dtv with
  | some d => strLe s d && strLe d e
  | none => false

/-- ASCII lowercasing of a string, as Python `str.lower` acts on the
ASCII descriptions and keywords involved here. -/
def lowerStr (s : String) : String := ⟨s.data.map Char.toLower⟩

/-- Whether `pat` occurs at the head of `hay`. -/
def subAt : List Char → List Char → Bool
  | [], _ => true
  | _ :: _, [] => false
  | a :: as, b :: bs => a == b && subAt as bs

/-- Python `pat in hay` substring containment on character lists. -/
def containsSub (hay pat : List Char) : Bool :=
  match hay with
  | [] => pat.isEmpty
  | _ :: t => subAt pat hay || containsSub t pat

/-- ASCII whitespace, for Python `str.strip`. -/
def isWS (c : Char) : Bool := c == ' ' || c == '\t' || c == '\n' || c == '\r'

/-- Python `str.strip()`: remove leading and trailing whitespace. -/
def trimStr (s : String) : String :=
  ⟨((s.data.dropWhile isWS).reverse.dropWhile isWS).reverse⟩

/-- SQL equality `x = y` on a nullable column: NULL on either side
matches nothing. -/
def sqlEq : Option Nat → Option Nat → Bool
  | some a, some b => a == b
  | _, _ => false

/-- A row of `users(id, username, password_hash)`. -/
structure UserRow where
  id : Nat
  username : String
  password_hash : String
deriving DecidableEq

/-- A row of `expenses(id, dt, amount, description, category, user_id)`;
`user_id` is a nullable column. -/
structure Expense where
  id : Nat
  dt : String
  amount : ℚ
  description : String
  category : String
  user_id : Option Nat
deriving DecidableEq

/-- The persisted database state, with the AUTOINCREMENT counters. -/
structure DB where
  users : List UserRow
  expenses : List Expense
  nextUserId : Nat
  nextExpenseId : Nat
deriving DecidableEq

/-- Outcome of a UI handler: the database afterwards and whether the
handler reported an error (`st.error`) instead of performing the action. -/
structure UiOutcome where
  db : DB
  errored : Bool
deriving DecidableEq

/-- The display fields of an expense (everything but the generated id
and the ownership key). -/
def rowFields (r : Expense) : String × ℚ × String × String :=
  (r.dt, r.amount, r.description, r.category)

/-- `KEYWORD_CATEGORY_MAP`: a Python dict, iterated in insertion order,
so embedded as the ordered association list written in the source. -/
def KEYWORD_CATEGORY_MAP : List (String × String) :=
  [("uber", "Transport"), ("taxi", "Transport"), ("bus", "Transport"), ("fuel", "Transport"),
   ("coffee", "Food"), ("restaurant", "Food"), ("dinner", "Food"), ("lunch", "Food"),
   ("breakfast", "Food"),
   ("grocery", "Groceries"), ("supermarket", "Groceries"), ("walmart", "Groceries"),
   ("netflix", "Entertainment"), ("movie", "Entertainment"), ("spotify", "Entertainment"),
   ("electricity", "Bills"), ("water", "Bills"), ("internet", "Bills"), ("bill", "Bills"),
   ("shirt", "Shopping"), ("amazon", "Shopping"), ("flipkart", "Shopping"), ("buy", "Shopping"),
   ("doctor", "Health"), ("hospital", "Health"), ("medicine", "Health"),
   ("tuition", "Education"), ("course", "Education"), ("books", "Education"),
   ("rent", "Rent")]

/-- The `for kw, cat in KEYWORD_CATEGORY_MAP.items()` loop of
`auto_categorize`: return the category of the first keyword contained
in the (already lowercased) description. -/
def categorizeLoop : List (String × String) → List Char → String
  | [], _ => "Misc"
  | (kw, cat) :: rest, desc =>
      if containsSub desc kw.data then cat else categorizeLoop rest desc

/-- `auto_categorize(description)`. The argument is `Option String` to
model a possibly absent (`None`) Python argument; `(description or "")`
maps `None` to the empty string. -/
def auto_categorize (description : Option String) : String :=
  let desc := lowerStr (description.getD "")
  categorizeLoop KEYWORD_CATEGORY_MAP desc.data

/-- The specification's reading of the categorizer: the category of the
first table pair whose keyword is a substring of the lowercased text,
found with `List.find?`, defaulting to "Misc". -/
def categorize_spec (d : String) : String :=
  match KEYWORD_CATEGORY_MAP.find? (fun p => containsSub (lowerStr d).data p.1.data) with
  | some p => p.2
  | none => "Misc"

/-- `add_expense(dt, amount, description, category, user_id)`: the
unconditional `INSERT INTO expenses` with the next AUTOINCREMENT id. -/
def add_expense (dt : String) (amount : ℚ) (description category : String)
    (user_id : Option Nat) (db : DB) : DB :=
  { db with
    expenses := db.expenses ++ [⟨db.nextExpenseId, dt, amount, description, category, user_id⟩],
    nextExpenseId := db.nextExpenseId + 1 }

/-- The descending-by-date order used to present query results
(`df.sort_values('dt', ascending=False)`). -/
def dtGe (a b : Expense) : Prop := strLe b.dt a.dt = true

instance : DecidableRel dtGe := fun a b =>
  inferInstanceAs (Decidable (strLe b.dt a.dt = true))

/-- `fetch_expenses(start_date, end_date, user_id)`:
`SELECT ... WHERE user_id=:uid`, plus
`AND date(dt) BETWEEN :start AND :end` only when
`start_date and end_date` is truthy (both present and non-empty),
then sorted by `dt` descending. -/
def fetch_expenses (start_date end_date : Option String) (user_id : Option Nat)
    (db : DB) : List Expense :=
  let base := db.expenses.filter (fun r => sqlEq r.user_id user_id)
  let rows :=
    match start_date, end_date with
    | some s, some e =>
        if !s.data.isEmpty && !e.data.isEmpty then
          base.filter (fun r => dateBetween r.dt s e)
        else base
    | _, _ => base
  List.insertionSort dtGe rows

/-- The Admin "Clear ALL Expenses" action:
`DELETE FROM expenses WHERE user_id=:uid`. -/
def delete_all_expenses (uid : Option Nat) (db : DB) : DB :=
  { db with expenses := db.expenses.filter (fun r => !(sqlEq r.user_id uid)) }

/-- The Admin "Delete Selected Range" handler: reject with an error when
`start_del > end_del`, otherwise
`DELETE FROM expenses WHERE user_id=:uid AND date(dt) BETWEEN :start AND :end`. -/
def delete_range_handler (uid : Option Nat) (start_del end_del : String)
    (db : DB) : UiOutcome :=
  if strGt start_del end_del then ⟨db, true⟩
  else
    ⟨{ db with expenses :=
        db.expenses.filter (fun r => !(sqlEq r.user_id uid && dateBetween r.dt start_del end_del)) },
     false⟩

/-- The Add Expense form handler: report an error when the entered
amount is `<= 0`, otherwise insert via `add_expense` with the stripped
description. -/
def add_expense_form (dt_str : String) (amount_input : ℚ) (description_input category : String)
    (uid : Option Nat) (db : DB) : UiOutcome :=
  if amount_input ≤ 0 then ⟨db, true⟩
  else ⟨add_expense dt_str amount_input (trimStr description_input) category uid db, false⟩

/-- `register_user(username, password)`: INSERT into `users`; the UNIQUE
constraint on `username` makes a duplicate raise `IntegrityError`, which
is caught and reported as `False` with the transaction rolled back.
`hash_password` (SHA-256) is an opaque one-way function, taken as a
parameter. -/
def register_user (hash_password : String → String) (username password : String)
    (db : DB) : Bool × DB :=
  if db.users.any (fun u => u.username == username) then (false, db)
  else
    (true,
     { db with
       users := db.users ++ [⟨db.nextUserId, username, hash_password password⟩],
       nextUserId := db.nextUserId + 1 })

/-- `authenticate_user(username, password)`: fetch the stored hash for
the username and compare against the recomputed hash; `False` both for
an unknown username and for a wrong password. -/
def authenticate_user (hash_password : String → String) (username password : String)
    (db : DB) : Bool :=
  match db.users.find? (fun u => u.username == username) with
  | some u => hash_password password == u.password_hash
  | none => false

/-- The cell values `pd.read_csv` reads as NaN by default: the empty
field plus the default NA token list. A cell holding one of these
becomes float NaN before the import loop sees it. -/
def NA_TOKENS : List String :=
  ["", "#N/A", "#N/A N/A", "#NA", "-1.#IND", "-1.#QNAN", "-NaN", "-nan",
   "1.#IND", "1.#QNAN", "<NA>", "N/A", "NA", "NULL", "NaN", "None",
   "n/a", "nan", "null"]

/-- Characters that can appear in a numeric CSV cell. A string made
only of these may be re-typed by column-wide dtype inference. -/
def numericChar (c : Char) : Bool := "0123456789+-.eE ".data.contains c

/-- A cell that `pd.read_csv` provably returns verbatim as a string, in
any column: non-empty, not an NA token, and containing at least one
character that cannot be part of a number (so no column containing it
is ever re-typed to a numeric dtype). -/
def plainCsvText (s : String) : Bool :=
  !(NA_TOKENS.contains s) && s.data.any (fun c => !(numericChar c))

/-- One parsed CSV row as the bulk-import loop sees it after
`pd.read_csv` and header lowercasing: `amount` is the numeric value of
the cell (`none` when the cell is not numeric, so that `float(...)`
raises); `description` and `category` are `none` when the cell was read
as NaN (empty field or NA token). -/
structure CsvRow where
  dt : String
  amount : Option ℚ
  description : Option String
  category : Option String
deriving DecidableEq

/-- `parser.parse(dt_val).date().strftime("%Y-%m-%d")` restricted to the
ISO strings this program exports: the identity on valid `YYYY-MM-DD`
dates, an exception (`none`) otherwise. -/
def parseDateISO (s : String) : Option String :=
  if validISO s then some s else none

/-- One iteration of the bulk-import row loop, in source order: parse
the amount (exception skips the row), take
`desc = str(row.get("description",""))` — which renders a NaN cell as
the literal string "nan" — derive the category when absent or blank,
parse the date (exception skips the row), and insert only when
`amt > 0`. The accumulator carries the database and the running
`inserted` counter. -/
def process_row (uid : Option Nat) (db : DB) (inserted : Nat) (row : CsvRow) : DB × Nat :=
  match row.amount with
  | none => (db, inserted)
  | some amt =>
      let desc :=
        match row.description with
        | none => "nan"
        | some s => s
      let cat :=
        match row.category with
        | none => auto_categorize (some desc)
        | some c => if c.data.isEmpty then auto_categorize (some desc) else c
      match parseDateISO row.dt with
      | none => (db, inserted)
      | some dt_parsed =>
          if 0 < amt then (add_expense dt_parsed amt desc cat uid db, inserted + 1)
          else (db, inserted)

/-- The whole bulk-import row loop over a validated CSV: returns the
final database and the reported `inserted` count. -/
def bulk_import (uid : Option Nat) (rows : List CsvRow) (db : DB) : DB × Nat :=
  rows.foldl (fun a r => process_row uid a.1 a.2 r) (db, 0)

/-- Whether a row survives the import loop: numeric positive amount and
a parsable date. -/
def row_ok (r : CsvRow) : Bool :=
  (match r.amount with
   | some a => decide (0 < a)
   | none => false)
  && (parseDateISO r.dt).isSome

/-- `export_csv` of one fetched record, as the import loop re-reads it:
`to_csv` renders the midnight `datetime` back as `YYYY-MM-DD`, the
float amount reparses to the same value, and a description or category
cell that is empty or an NA token is read back as NaN (`none`) rather
than as its text. Column-wide numeric dtype inference is not modelled:
a text cell is taken back verbatim, which is exact whenever some cell
of its column is `plainCsvText` (the round-trip theorem restricts every
cell of both columns to that). The generated `id` column is ignored on
import. -/
def export_row (e : Expense) : CsvRow :=
  { dt := e.dt, amount := some e.amount,
    description := if NA_TOKENS.contains e.description then none else some e.description,
    category := if NA_TOKENS.contains e.category then none else some e.category }

/-- `export_csv` of a fetched result set, row by row. -/
def export_rows (es : List Expense) : List CsvRow := es.map export_row

/-! ### Order lemmas for the date comparison -/

theorem lexLe_refl (l : List Char) : lexLe l l = true := by
  induction l with
  | nil => rfl
  | cons a t ih => simp [lexLe, ih]

theorem lexLe_total (a : List Char) : ∀ b : List Char, lexLe a b = true ∨ lexLe b a = true := by
  induction a with
  | nil => intro b; left; rfl
  | cons x xs ih =>
    intro b
    cases b with
    | nil => right; rfl
    | cons y ys =>
      simp only [lexLe, Bool.or_eq_true, Bool.and_eq_true, decide_eq_true_eq]
      rcases Nat.lt_trichotomy x.toNat y.toNat with h | h | h
      · exact Or.inl (Or.inl h)
      · rcases ih ys with h2 | h2
        · exact Or.inl (Or.inr ⟨h, h2⟩)
        · exact Or.inr (Or.inr ⟨h.symm, h2⟩)
      · exact Or.inr (Or.inl h)

theorem lexLe_trans (a : List Char) :
    ∀ b c : List Char, lexLe a b = true → lexLe b c = true → lexLe a c = true := by
  induction a with
  | nil => intro b c _ _; rfl
  | cons x xs ih =>
    intro b c hab hbc
    cases b with
    | nil => simp [lexLe] at hab
    | cons y ys =>
      cases c with
      | nil => simp [lexLe] at hbc
      | cons z zs =>
        simp only [lexLe, Bool.or_eq_true, Bool.and_eq_true, decide_eq_true_eq] at hab hbc ⊢
        rcases hab with h1 | ⟨h1, h1r⟩ <;> rcases hbc with h2 | ⟨h2, h2r⟩
        · exact Or.inl (by omega)
        · exact Or.inl (by omega)
        · exact Or.inl (by omega)
        · exact Or.inr ⟨by omega, ih ys zs h1r h2r⟩

instance : IsTotal Expense dtGe :=
  ⟨fun a b => lexLe_total b.dt.data a.dt.data⟩

instance : IsTrans Expense dtGe :=
  ⟨fun _ b _ hab hbc => lexLe_trans _ b.dt.data _ hbc hab⟩

/-! ### Helper lemmas about the SQL filters -/

theorem sqlEq_some_iff (x : Option Nat) (u : Nat) : sqlEq x (some u) = true ↔ x = some u := by
  cases x <;> simp [sqlEq]

theorem sqlEq_some_eq_false_iff (x : Option Nat) (u : Nat) :
    sqlEq x (some u) = false ↔ x ≠ some u := by
  cases x <;> simp [sqlEq]

theorem sqlEq_none_right (x : Option Nat) : sqlEq x none = false := by
  cases x <;> rfl

theorem validISO_data_not_empty {s : String} (h : validISO s = true) :
    s.data.isEmpty = false := by
  cases hd : s.data with
  | nil => rw [validISO, hd] at h; exact absurd h (by simp)
  | cons c t => simp

/-- Everything a fetched row satisfies before sorting: it comes from the
table and passes the `user_id=:uid` filter. -/
theorem mem_fetch_imp {sd ed : Option String} {uid : Option Nat} {db : DB} {r : Expense}
    (h : r ∈ fetch_expenses sd ed uid db) :
    r ∈ db.expenses ∧ sqlEq r.user_id uid = true := by
  unfold fetch_expenses at h
  have hr := (List.perm_insertionSort dtGe _).mem_iff.mp h
  have hbase : r ∈ db.expenses.filter (fun r => sqlEq r.user_id uid) := by
    split at hr
    · split at hr
      · exact (List.mem_filter.mp hr).1
      · exact hr
    · exact hr
  exact ⟨(List.mem_filter.mp hbase).1, (List.mem_filter.mp hbase).2⟩

/-! ### Claim theorems -/

/-- C1: user-ownership scoping. `fetch_expenses` only returns rows whose
`user_id` equals the requested user, so two distinct users get disjoint
results; the admin deletions never remove a row owned by a different
user; and a missing (`None`) user identifier fails closed: the query
matches no rows and the deletions remove nothing. -/
theorem ownership_scope (db : DB) (sd ed : Option String) (u v : Nat) (r : Expense)
    (s e : String) :
    (r ∈ fetch_expenses sd ed (some u) db → r.user_id = some u) ∧
    (u ≠ v → r ∈ fetch_expenses sd ed (some u) db → r ∉ fetch_expenses sd ed (some v) db) ∧
    (r ∈ db.expenses → r.user_id ≠ some u → r ∈ (delete_all_expenses (some u) db).expenses) ∧
    (r ∈ db.expenses → r.user_id ≠ some u →
      r ∈ (delete_range_handler (some u) s e db).db.expenses) ∧
    fetch_expenses sd ed none db = [] ∧
    delete_all_expenses none db = db ∧
    (delete_range_handler none s e db).db = db := by
  have hmem : ∀ w : Nat, r ∈ fetch_expenses sd ed (some w) db → r.user_id = some w :=
    fun w hw => (sqlEq_some_iff _ _).mp (mem_fetch_imp hw).2
  refine ⟨hmem u, ?_, ?_, ?_, ?_, ?_, ?_⟩
  · intro huv hu hv
    exact huv (Option.some.inj ((hmem u hu).symm.trans (hmem v hv)))
  · intro hin hne
    exact List.mem_filter.mpr ⟨hin, by simp [(sqlEq_some_eq_false_iff _ _).mpr hne]⟩
  · intro hin hne
    unfold delete_range_handler
    split
    · exact hin
    · exact List.mem_filter.mpr ⟨hin, by simp [(sqlEq_some_eq_false_iff _ _).mpr hne]⟩
  · have hbase : db.expenses.filter (fun x => sqlEq x.user_id none) = [] :=
      List.filter_eq_nil_iff.mpr (fun a _ => by simp [sqlEq_none_right])
    simp only [fetch_expenses, hbase]
    split <;> simp [List.insertionSort]
  · simp [delete_all_expenses, sqlEq_none_right]
  · unfold delete_range_handler
    split <;> simp [sqlEq_none_right]

def dbC1 : DB :=
  ⟨[], [⟨1, "2024-01-05", 5, "coffee", "Food", some 1⟩,
        ⟨2, "2024-01-10", 7, "bus", "Transport", some 2⟩], 1, 3⟩

def rC1a : Expense := ⟨1, "2024-01-05", 5, "coffee", "Food", some 1⟩

def rC1b : Expense := ⟨2, "2024-01-10", 7, "bus", "Transport", some 2⟩

/-- C1 witness: the scoping theorem applied to a concrete two-user
database. -/
theorem ownership_scope_witness :
    rC1a.user_id = some 1 ∧
    rC1a ∉ fetch_expenses none none (some 2) dbC1 ∧
    rC1b ∈ (delete_all_expenses (some 1) dbC1).expenses ∧
    rC1b ∈ (delete_range_handler (some 1) "2024-01-01" "2024-12-31" dbC1).db.expenses ∧
    fetch_expenses none none none dbC1 = [] ∧
    delete_all_expenses none dbC1 = dbC1 ∧
    (delete_range_handler none "2024-01-01" "2024-12-31" dbC1).db = dbC1 :=
  ⟨(ownership_scope dbC1 none none 1 2 rC1a "2024-01-01" "2024-12-31").1 (by decide),
   (ownership_scope dbC1 none none 1 2 rC1a "2024-01-01" "2024-12-31").2.1 (by decide) (by decide),
   (ownership_scope dbC1 none none 1 2 rC1b "2024-01-01" "2024-12-31").2.2.1 (by decide) (by decide),
   (ownership_scope dbC1 none none 1 2 rC1b "2024-01-01" "2024-12-31").2.2.2.1 (by decide)
     (by decide),
   (ownership_scope dbC1 none none 1 2 rC1a "2024-01-01" "2024-12-31").2.2.2.2.1,
   (ownership_scope dbC1 none none 1 2 rC1a "2024-01-01" "2024-12-31").2.2.2.2.2.1,
   (ownership_scope dbC1 none none 1 2 rC1a "2024-01-01" "2024-12-31").2.2.2.2.2.2⟩

/-- C2: the Add Expense flow rejects a non-positive amount with an error
and persists nothing: the database is unchanged, in particular the
user's record count. -/
theorem add_rejects_nonpositive (db : DB) (uid : Option Nat) (dt_str : String)
    (amount_input : ℚ) (description_input category : String) (h : amount_input ≤ 0) :
    add_expense_form dt_str amount_input description_input category uid db = ⟨db, true⟩ ∧
    (add_expense_form dt_str amount_input description_input category uid db).db.expenses.countP
        (fun r => sqlEq r.user_id uid)
      = db.expenses.countP (fun r => sqlEq r.user_id uid) := by
  have h1 : add_expense_form dt_str amount_input description_input category uid db
      = ⟨db, true⟩ := by
    simp [add_expense_form, h]
  exact ⟨h1, by rw [h1]⟩

/-- C2 witness: adding an expense of amount 0 errors and leaves the
database unchanged. -/
theorem add_rejects_nonpositive_witness :
    add_expense_form "2024-01-01" 0 "snacks" "Food" (some 1) ⟨[], [], 1, 1⟩
        = ⟨⟨[], [], 1, 1⟩, true⟩ ∧
    (add_expense_form "2024-01-01" 0 "snacks" "Food" (some 1) ⟨[], [], 1, 1⟩).db.expenses.countP
        (fun r => sqlEq r.user_id (some 1))
      = (⟨[], [], 1, 1⟩ : DB).expenses.countP (fun r => sqlEq r.user_id (some 1)) :=
  add_rejects_nonpositive ⟨[], [], 1, 1⟩ (some 1) "2024-01-01" 0 "snacks" "Food" (by decide)

/-- C8: the Delete Selected Range handler with `start > end` reports an
error and deletes nothing. -/
theorem delete_range_rejects (db : DB) (uid : Option Nat) (s e : String)
    (hs : validISO s = true) (he : validISO e = true) (hgt : strGt s e = true) :
    delete_range_handler uid s e db = ⟨db, true⟩ ∧
    (delete_range_handler uid s e db).db.expenses = db.expenses := by
  have h1 : delete_range_handler uid s e db = ⟨db, true⟩ := by
    simp [delete_range_handler, hgt]
  exact ⟨h1, by rw [h1]⟩

/-- C8 witness: a reversed concrete range errors out on a non-empty
database and leaves it unchanged. -/
theorem delete_range_rejects_witness :
    delete_range_handler (some 1) "2024-02-01" "2024-01-01"
        ⟨[], [⟨1, "2024-01-15", 5, "taxi", "Transport", some 1⟩], 1, 2⟩
      = ⟨⟨[], [⟨1, "2024-01-15", 5, "taxi", "Transport", some 1⟩], 1, 2⟩, true⟩ ∧
    (delete_range_handler (some 1) "2024-02-01" "2024-01-01"
        ⟨[], [⟨1, "2024-01-15", 5, "taxi", "Transport", some 1⟩], 1, 2⟩).db.expenses
      = (⟨[], [⟨1, "2024-01-15", 5, "taxi", "Transport", some 1⟩], 1, 2⟩ : DB).expenses :=
  delete_range_rejects ⟨[], [⟨1, "2024-01-15", 5, "taxi", "Transport", some 1⟩], 1, 2⟩
    (some 1) "2024-02-01" "2024-01-01" (by decide) (by decide) (by decide)

/-- C9: the categorizer is total on a missing (`None`) description: it
returns "Misc", the same as on the empty string. -/
theorem categorize_none_total :
    auto_categorize none = "Misc" ∧ auto_categorize none = auto_categorize (some "") :=
  ⟨by decide, by decide⟩

/-- C10: the date filter applies only when both bounds are supplied and
non-empty; with only one bound, or an empty-string bound, the query
returns the user's full record set, identical to a call with no range. -/
theorem filter_requires_both_bounds (db : DB) (uid : Option Nat) (s e : String) :
    fetch_expenses (some s) none uid db = fetch_expenses none none uid db ∧
    fetch_expenses none (some e) uid db = fetch_expenses none none uid db ∧
    fetch_expenses (some "") (some e) uid db = fetch_expenses none none uid db ∧
    fetch_expenses (some s) (some "") uid db = fetch_expenses none none uid db := by
  refine ⟨rfl, rfl, rfl, ?_⟩
  simp [fetch_expenses, show ("" : String).data.isEmpty = true from rfl]

/-- C3: with both bounds of a genuine date range supplied, the query is
exactly the date-filtered restriction of the unfiltered query (as a
multiset), and the result is ordered by date descending. -/
theorem query_range_filters (db : DB) (u : Nat) (s e : String)
    (hs : validISO s = true) (he : validISO e = true) :
    (fetch_expenses (some s) (some e) (some u) db).Perm
      ((fetch_expenses none none (some u) db).filter (fun r => dateBetween r.dt s e)) ∧
    List.Sorted dtGe (fetch_expenses (some s) (some e) (some u) db) := by
  have hsne := validISO_data_not_empty hs
  have hene := validISO_data_not_empty he
  have hfe : fetch_expenses (some s) (some e) (some u) db
      = List.insertionSort dtGe
          ((db.expenses.filter (fun r => sqlEq r.user_id (some u))).filter
            (fun r => dateBetween r.dt s e)) := by
    show List.insertionSort dtGe
        (if !s.data.isEmpty && !e.data.isEmpty then
          (db.expenses.filter (fun r => sqlEq r.user_id (some u))).filter
            (fun r => dateBetween r.dt s e)
        else db.expenses.filter (fun r => sqlEq r.user_id (some u))) = _
    rw [if_pos (show (!s.data.isEmpty && !e.data.isEmpty) = true by simp [hsne, hene])]
  have hfn : fetch_expenses none none (some u) db
      = List.insertionSort dtGe (db.expenses.filter (fun r => sqlEq r.user_id (some u))) := rfl
  constructor
  · rw [hfe, hfn]
    exact (List.perm_insertionSort dtGe _).trans
      ((List.Perm.filter _ (List.perm_insertionSort dtGe _)).symm)
  · rw [hfe]
    exact List.sorted_insertionSort dtGe _

def dbC3 : DB :=
  ⟨[], [⟨1, "2024-01-05", 5, "coffee", "Food", some 1⟩,
        ⟨2, "2024-01-20", 8, "movie", "Entertainment", some 1⟩,
        ⟨3, "2024-03-01", 9, "rent", "Rent", some 1⟩,
        ⟨4, "2024-01-10", 7, "bus", "Transport", some 2⟩], 1, 5⟩

/-- C3 witness: the range query theorem applied at a concrete database
and a concrete January range. -/
theorem query_range_filters_witness :
    (fetch_expenses (some "2024-01-01") (some "2024-01-31") (some 1) dbC3).Perm
      ((fetch_expenses none none (some 1) dbC3).filter
        (fun r => dateBetween r.dt "2024-01-01" "2024-01-31")) ∧
    List.Sorted dtGe (fetch_expenses (some "2024-01-01") (some "2024-01-31") (some 1) dbC3) :=
  query_range_filters dbC3 1 "2024-01-01" "2024-01-31" (by decide) (by decide)

/-- The categorizer loop returns the category of the first matching
table pair, i.e. agrees with `List.find?` over the ordered table. -/
theorem categorizeLoop_eq_find (l : List (String × String)) (cs : List Char) :
    categorizeLoop l cs =
      (match l.find? (fun p => containsSub cs p.1.data) with
       | some p => p.2
       | none => "Misc") := by
  induction l with
  | nil => rfl
  | cons p rest ih =>
      rcases p with ⟨kw, cat⟩
      by_cases h : containsSub cs kw.data = true
      · simp [categorizeLoop, List.find?, h]
      · have hf : containsSub cs kw.data = false := by
          cases hx : containsSub cs kw.data
          · rfl
          · exact absurd hx h
        simp [categorizeLoop, List.find?, hf, ih]

/-- C4: `auto_categorize` lowercases the text and returns the category
of the first `(keyword, category)` pair of the ordered table whose
keyword occurs in it, "Misc" when none does; concretely
"Uber ride home" maps to "Transport", the empty string to "Misc", and in
"buy water", which contains both "water" (Bills) and "buy" (Shopping),
the earlier table pair wins. -/
theorem auto_categorize_first_match :
    (∀ d : String, auto_categorize (some d) = categorize_spec d) ∧
    auto_categorize (some "Uber ride home") = "Transport" ∧
    auto_categorize (some "") = "Misc" ∧
    containsSub (lowerStr "buy water").data "water".data = true ∧
    containsSub (lowerStr "buy water").data "buy".data = true ∧
    auto_categorize (some "buy water") = "Bills" := by
  refine ⟨?_, by decide, by decide, by decide, by decide, by decide⟩
  intro d
  unfold auto_categorize categorize_spec
  exact categorizeLoop_eq_find KEYWORD_CATEGORY_MAP (lowerStr d).data

/-- A plain-text cell is not an NA token and is non-empty. -/
theorem plainCsvText_props {s : String} (h : plainCsvText s = true) :
    NA_TOKENS.contains s = false ∧ s.data.isEmpty = false := by
  unfold plainCsvText at h
  rw [Bool.and_eq_true] at h
  refine ⟨?_, ?_⟩
  · cases hx : NA_TOKENS.contains s
    · rfl
    · rw [hx] at h; simp at h
  · cases hd : s.data with
    | nil => rw [hd] at h; simp at h
    | cons c t => simp

/-- Importing the exported image of a single well-formed record with
plain-text description and category inserts exactly that record's
display fields. -/
theorem process_export_row (uid : Option Nat) (db : DB) (n : Nat) (e : Expense)
    (h1 : validISO e.dt = true) (h2 : 0 < e.amount)
    (h3 : plainCsvText e.description = true) (h4 : plainCsvText e.category = true) :
    process_row uid db n (export_row e)
      = (add_expense e.dt e.amount e.description e.category uid db, n + 1) := by
  have hd := plainCsvText_props h3
  have hc := plainCsvText_props h4
  have hd1 : e.description ∉ NA_TOKENS := by simpa using hd.1
  have hc1 : e.category ∉ NA_TOKENS := by simpa using hc.1
  have hc2 : e.category.data ≠ [] := by simpa using hc.2
  simp [process_row, export_row, parseDateISO, h1, h2, hd1, hc1, hc2]

/-- Folding the import loop over an exported well-formed record list
counts every record and appends rows with identical display fields. -/
theorem foldl_import_export (uid : Option Nat) (es : List Expense) :
    ∀ (db2 : DB) (n : Nat),
      (∀ r ∈ es, validISO r.dt = true ∧ 0 < r.amount ∧
          plainCsvText r.description = true ∧ plainCsvText r.category = true) →
      (List.foldl (fun a r => process_row uid a.1 a.2 r) (db2, n) (export_rows es)).2
          = n + es.length ∧
      (List.foldl (fun a r => process_row uid a.1 a.2 r) (db2, n)
          (export_rows es)).1.expenses.map rowFields
        = db2.expenses.map rowFields ++ es.map rowFields := by
  induction es with
  | nil => intro db2 n _; simp [export_rows]
  | cons e es ih =>
      intro db2 n h
      have he := h e (by simp)
      have hrest : ∀ r ∈ es, validISO r.dt = true ∧ 0 < r.amount ∧
          plainCsvText r.description = true ∧ plainCsvText r.category = true :=
        fun r hr => h r (by simp [hr])
      simp only [export_rows, List.map_cons, List.foldl_cons]
      rw [process_export_row uid db2 n e he.1 he.2.1 he.2.2.1 he.2.2.2]
      have hih := ih (add_expense e.dt e.amount e.description e.category uid db2) (n + 1) hrest
      simp only [export_rows] at hih
      refine ⟨by rw [hih.1, List.length_cons]; omega, ?_⟩
      rw [hih.2]
      simp [add_expense, rowFields]

/-- C5 (amended): re-importing the export of a user's query (category
column present) reinserts, for any session user and target database,
one record per exported record, appended in order, with date, amount,
description and category equal to those of the exported records —
provided every exported record is well formed (ISO date, positive
amount) and its description and category are plain CSV text (non-empty,
not a pandas NA token, not typeable as a number). Without the
plain-text restriction the round trip fails: see the counterexample, an
empty description re-imports as the string "nan". -/
theorem export_import_roundtrip (db db2 : DB) (uid2 : Option Nat)
    (sd ed : Option String) (u : Nat)
    (h : ∀ r ∈ fetch_expenses sd ed (some u) db,
        validISO r.dt = true ∧ 0 < r.amount ∧
        plainCsvText r.description = true ∧ plainCsvText r.category = true) :
    (bulk_import uid2 (export_rows (fetch_expenses sd ed (some u) db)) db2).2
        = (fetch_expenses sd ed (some u) db).length ∧
    (bulk_import uid2 (export_rows (fetch_expenses sd ed (some u) db)) db2).1.expenses.map
        rowFields
      = db2.expenses.map rowFields ++ (fetch_expenses sd ed (some u) db).map rowFields := by
  have hmain := foldl_import_export uid2 (fetch_expenses sd ed (some u) db) db2 0 h
  exact ⟨by simpa [bulk_import] using hmain.1, by simpa [bulk_import] using hmain.2⟩

def dbC5 : DB :=
  ⟨[], [⟨1, "2024-01-05", 5, "coffee", "Food", some 1⟩,
        ⟨2, "2024-02-20", 8, "movie", "Entertainment", some 1⟩,
        ⟨3, "2024-01-10", 7, "bus", "Transport", some 2⟩], 1, 4⟩

/-- C5 witness: the round trip at a concrete database, re-imported for a
different session user into another concrete database. -/
theorem export_import_roundtrip_witness :
    (bulk_import (some 2) (export_rows (fetch_expenses none none (some 1) dbC5)) dbC5).2
        = (fetch_expenses none none (some 1) dbC5).length ∧
    (bulk_import (some 2) (export_rows (fetch_expenses none none (some 1) dbC5))
        dbC5).1.expenses.map rowFields
      = dbC5.expenses.map rowFields ++ (fetch_expenses none none (some 1) dbC5).map rowFields :=
  export_import_roundtrip dbC5 dbC5 (some 2) none none 1 (by decide)

/-- A reachable record with an empty description: the Add Expense form
stores `description_input.strip()`, which can be empty. -/
def dbC5bad : DB := ⟨[], [⟨1, "2024-01-05", 5, "", "Misc", some 1⟩], 1, 2⟩

/-- C5 counterexample: the unrestricted round-trip claim is false. For
a record with an empty description, the exported cell is read back as
NaN and `str(...)` turns it into the literal string "nan", so the
re-inserted record's description differs from the original. -/
theorem export_import_description_counterexample :
    (fetch_expenses none none (some 1) dbC5bad).map Expense.description = [""] ∧
    ((bulk_import (some 1) (export_rows (fetch_expenses none none (some 1) dbC5bad))
        dbC5bad).1.expenses.drop 1).map Expense.description = ["nan"] ∧
    ("nan" : String) ≠ "" := by decide

/-- One import-loop iteration leaves the running count unchanged on a
failed row and increments it on a good row, never aborting. -/
theorem process_row_count (uid : Option Nat) (db : DB) (n : Nat) (r : CsvRow) :
    (process_row uid db n r).2 = n + (if row_ok r then 1 else 0) := by
  rcases r with ⟨dt, amt, desc, cat⟩
  cases amt with
  | none => simp [process_row, row_ok]
  | some a =>
      cases hp : parseDateISO dt with
      | none => simp [process_row, row_ok, hp]
      | some d =>
          by_cases h0 : 0 < a
          · simp [process_row, row_ok, hp, h0]
          · simp [process_row, row_ok, hp, h0]

/-- The reported inserted count of the whole batch is the number of rows
that individually pass, independent of the database state. -/
theorem foldl_import_count (uid : Option Nat) (rows : List CsvRow) :
    ∀ (db : DB) (n : Nat),
      (List.foldl (fun a r => process_row uid a.1 a.2 r) (db, n) rows).2
        = n + rows.countP row_ok := by
  induction rows with
  | nil => intro db n; simp
  | cons r rs ih =>
      intro db n
      simp only [List.foldl_cons, List.countP_cons]
      have h1 := process_row_count uid db n r
      rcases hp : process_row uid db n r with ⟨db1, n1⟩
      rw [hp] at h1
      rw [ih db1 n1]
      simp only at h1
      by_cases hok : row_ok r = true
      · simp [hok] at h1 ⊢; omega
      · simp [hok] at h1 ⊢; omega

def rowC6a : CsvRow := ⟨"2024-01-05", some 5, some "coffee", some "Food"⟩

def rowC6bad : CsvRow := ⟨"2024-01-06", none, some "bus ticket", some "Transport"⟩

def rowC6c : CsvRow := ⟨"2024-01-07", some 3, some "netflix", some "Entertainment"⟩

/-- C6: bulk import isolates row-level failures: the inserted count of
any batch is the count of rows that individually parse with a positive
amount — a failing row is skipped and every other row is still
processed — and for the concrete 3-row batch whose second row has a
non-numeric amount the reported count is 2. -/
theorem import_isolates_failures :
    (∀ (uid : Option Nat) (rows : List CsvRow) (db : DB),
        (bulk_import uid rows db).2 = rows.countP row_ok) ∧
    rowC6bad.amount = none ∧
    (bulk_import (some 1) [rowC6a, rowC6bad, rowC6c] ⟨[], [], 1, 1⟩).2 = 2 := by
  refine ⟨?_, rfl, by decide⟩
  intro uid rows db
  simpa [bulk_import] using foldl_import_count uid rows db 0

/-- `find?` skips a block of rows on which the predicate fails. -/
theorem find?_append_skip {l₁ l₂ : List UserRow} {p : UserRow → Bool}
    (h : ∀ u ∈ l₁, p u = false) : (l₁ ++ l₂).find? p = l₂.find? p := by
  induction l₁ with
  | nil => rfl
  | cons a t ih =>
      have ha := h a (by simp)
      rw [List.cons_append, List.find?_cons_of_neg _ (by simp [ha])]
      exact ih (fun u hu => h u (by simp [hu]))

/-- C7: registering an existing username returns `False` (a conflict
signal, not an exception) and leaves the stored credential unchanged;
the first registration succeeds, authentication with the original
password succeeds, and a wrong password fails with the same uniform
`False` an unknown username gets. -/
theorem register_conflict_auth_uniform (hash_password : String → String) (db0 : DB)
    (hfresh : ∀ u ∈ db0.users, u.username ≠ "alice")
    (hcoll : hash_password "pw1" ≠ hash_password "wrong") :
    (register_user hash_password "alice" "pw1" db0).1 = true ∧
    register_user hash_password "alice" "pw2" (register_user hash_password "alice" "pw1" db0).2
        = (false, (register_user hash_password "alice" "pw1" db0).2) ∧
    authenticate_user hash_password "alice" "pw1"
        (register_user hash_password "alice" "pw1" db0).2 = true ∧
    authenticate_user hash_password "alice" "wrong"
        (register_user hash_password "alice" "pw1" db0).2 = false ∧
    (∀ name pw,
        (∀ u ∈ (register_user hash_password "alice" "pw1" db0).2.users, u.username ≠ name) →
        authenticate_user hash_password name pw (register_user hash_password "alice" "pw1" db0).2
          = authenticate_user hash_password "alice" "wrong"
              (register_user hash_password "alice" "pw1" db0).2) := by
  have hany : db0.users.any (fun u => u.username == "alice") = false := by
    cases hx : db0.users.any (fun u => u.username == "alice")
    · rfl
    · rcases List.any_eq_true.mp hx with ⟨w, hw, hweq⟩
      exact absurd (beq_iff_eq.mp hweq) (hfresh w hw)
  have hreg : register_user hash_password "alice" "pw1" db0
      = (true,
         { db0 with
           users := db0.users ++ [⟨db0.nextUserId, "alice", hash_password "pw1"⟩],
           nextUserId := db0.nextUserId + 1 }) := by
    simp [register_user, hany]
  have hfind : ((register_user hash_password "alice" "pw1" db0).2.users.find?
          (fun u => u.username == "alice"))
        = some ⟨db0.nextUserId, "alice", hash_password "pw1"⟩ := by
    rw [hreg]
    exact (find?_append_skip (fun u hu => by simp [hfresh u hu])).trans (by simp [List.find?])
  have h4 : authenticate_user hash_password "alice" "wrong"
      (register_user hash_password "alice" "pw1" db0).2 = false := by
    unfold authenticate_user
    rw [hfind]
    exact beq_eq_false_iff_ne.mpr (Ne.symm hcoll)
  refine ⟨by rw [hreg], ?_, ?_, h4, ?_⟩
  · have hdup : ∀ db1 : DB, db1.users.any (fun u => u.username == "alice") = true →
        register_user hash_password "alice" "pw2" db1 = (false, db1) := by
      intro db1 h1
      unfold register_user
      rw [if_pos h1]
    apply hdup
    rw [hreg]
    exact List.any_eq_true.mpr ⟨⟨db0.nextUserId, "alice", hash_password "pw1"⟩,
      by simp, by simp⟩
  · unfold authenticate_user
    rw [hfind]
    exact beq_self_eq_true (hash_password "pw1")
  · intro name pw hunk
    have hnone : ((register_user hash_password "alice" "pw1" db0).2.users.find?
        (fun u => u.username == name)) = none :=
      List.find?_eq_none.mpr (fun u hu => by simp [hunk u hu])
    rw [h4]
    unfold authenticate_user
    rw [hnone]

/-- C7 witness: the credential theorem at the identity digest function
on an empty user table. -/
theorem register_conflict_auth_uniform_witness :
    (register_user (fun s => s) "alice" "pw1" ⟨[], [], 1, 1⟩).1 = true ∧
    register_user (fun s => s) "alice" "pw2"
        (register_user (fun s => s) "alice" "pw1" ⟨[], [], 1, 1⟩).2
      = (false, (register_user (fun s => s) "alice" "pw1" ⟨[], [], 1, 1⟩).2) ∧
    authenticate_user (fun s => s) "alice" "pw1"
        (register_user (fun s => s) "alice" "pw1" ⟨[], [], 1, 1⟩).2 = true ∧
    authenticate_user (fun s => s) "alice" "wrong"
        (register_user (fun s => s) "alice" "pw1" ⟨[], [], 1, 1⟩).2 = false ∧
    (∀ name pw,
        (∀ u ∈ (register_user (fun s => s) "alice" "pw1" ⟨[], [], 1, 1⟩).2.users,
            u.username ≠ name) →
        authenticate_user (fun s => s) name pw
            (register_user (fun s => s) "alice" "pw1" ⟨[], [], 1, 1⟩).2
          = authenticate_user (fun s => s) "alice" "wrong"
              (register_user (fun s => s) "alice" "pw1" ⟨[], [], 1, 1⟩).2) :=
  register_conflict_auth_uniform (fun s => s) ⟨[], [], 1, 1⟩ (by simp) (by decide)

end Tracker
